import Mathlib

/-
  Verification development for the `delay` repository (src/delay.py).

  The program provides one entry point, `delay(func, typ=_annotated)`:
  given a zero-argument producer function, it synthesizes (once per
  result type, cached in the global `_delayedtypes` registry) a proxy
  type whose every routine forwards to a lazily computed, memoized
  value, and returns an instance of that proxy type holding the
  producer in its `__func__` attribute.

  The development is split in two:
  * a value-level model of a handle's dynamics: the `__new__` the code
    installs (which stores `__func__`), and the `wrapper` closure built
    by `make_wrapper` (which looks up `__value__`, on AttributeError
    invokes `__func__` and stores the result, then delegates);
  * a type-level model of `delay` itself: resolution of the target
    type from the explicit argument or the producer's return
    annotation, the `_delayedtypes` registry, and the `methdict`
    construction loop over `dir(typ)`.
-/

namespace Delay

/-- Errors observable from a forwarded operation.  The `wrapper` closure
in src/delay.py catches AttributeError only around the `__value__`
lookup; an error raised by the producer itself escapes unchanged, and a
missing `__func__` attribute would surface as an AttributeError. -/
inductive PyErr (E : Type) where
  | attributeError : PyErr E
  | producerError : E → PyErr E
deriving DecidableEq

/-- The mutable attributes of one handle, plus a ghost counter of how
many times the producer has been invoked (its side-effect count).
`func?` models the `__func__` attribute set by the installed `__new__`;
`value?` models the `__value__` attribute, absent until first forcing.
An impure producer is modelled as a function from its invocation index
to an outcome, so distinct calls may yield distinct results or errors. -/
structure HandleState (E V : Type) where
  func? : Option (Nat → Except E V)
  value? : Option V
  calls : Nat

/-- Model of the `__new__` installed in the methdict (src/delay.py lines
23-27): allocate the handle and store the producer in `__func__`.  The
producer is not invoked; no `__value__` attribute exists yet. -/
def newHandle {E V : Type} (p : Nat → Except E V) : HandleState E V :=
  { func? := some p, value? := none, calls := 0 }

/-- Model of the forcing prefix of `wrapper` (src/delay.py lines 40-46):
read `__value__`; on AttributeError read `__func__`, call it, and store
the result in `__value__`.  A producer error escapes before
`__value__` is assigned, leaving the handle unforced. -/
def force {E V : Type} (s : HandleState E V) :
    Except (PyErr E) V × HandleState E V :=
  match s.value? with
  | some v => (Except.ok v, s)
  | none =>
    match s.func? with
    | none => (Except.error PyErr.attributeError, s)
    | some f =>
      match f s.calls with
      | Except.error e =>
          (Except.error (PyErr.producerError e), { s with calls := s.calls + 1 })
      | Except.ok v =>
          (Except.ok v,
           { s with value? := some v, calls := s.calls + 1 })

/-- Model of one full `wrapper` call (src/delay.py lines 38-47): force
the handle, then delegate the requested operation to the forced value
via `method(value, *args, **kw)`.  The operation, with its extra
arguments already applied, is an arbitrary function on the value. -/
def wrapperStep {E V R : Type} (s : HandleState E V) (method : V → R) :
    Except (PyErr E) R × HandleState E V :=
  match force s with
  | (Except.ok v, s') => (Except.ok (method v), s')
  | (Except.error e, s') => (Except.error e, s')

/-- A sequence of forwarded operations performed on one handle, each
going through the same `wrapper` mechanism; returns the list of
individual results and the final handle state. -/
def runOps {E V R : Type} :
    HandleState E V → List (V → R) → List (Except (PyErr E) R) × HandleState E V
  | s, [] => ([], s)
  | s, op :: ops =>
    ((wrapperStep s op).1 :: (runOps (wrapperStep s op).2 ops).1,
     (runOps (wrapperStep s op).2 ops).2)

/-- Forcing a handle that already carries a cached value returns that
value and leaves the state untouched. -/
theorem force_of_cached {E V : Type} (s : HandleState E V) (v : V)
    (h : s.value? = some v) : force s = (Except.ok v, s) := by
  unfold force
  rw [h]

/-- A forwarded operation on an already-forced handle delegates to the
cached value and leaves the state untouched. -/
theorem wrapperStep_of_cached {E V R : Type} (s : HandleState E V) (v : V)
    (method : V → R) (h : s.value? = some v) :
    wrapperStep s method = (Except.ok (method v), s) := by
  unfold wrapperStep
  rw [force_of_cached s v h]

/-- Any sequence of forwarded operations on an already-forced handle
delegates every operation to the cached value and never changes the
state (in particular the producer is never invoked). -/
theorem runOps_of_cached {E V R : Type} (s : HandleState E V) (v : V)
    (h : s.value? = some v) (ops : List (V → R)) :
    runOps s ops = (ops.map (fun op => Except.ok (op v)), s) := by
  induction ops with
  | nil => rfl
  | cons op ops ih =>
      unfold runOps
      rw [wrapperStep_of_cached s v op h]
      simp [ih]

/-- The first forwarded operation on a fresh handle whose producer's
first invocation succeeds: the producer runs once, its value is cached,
and the operation delegates to it. -/
theorem wrapperStep_first {E V R : Type} (p : Nat → Except E V) (v0 : V)
    (h : p 0 = Except.ok v0) (op : V → R) :
    wrapperStep (newHandle p) op =
      (Except.ok (op v0),
       { func? := some p, value? := some v0, calls := 1 }) := by
  unfold wrapperStep force newHandle
  simp [h]

/-- Claim C1: for a producer whose first invocation succeeds, a handle
created by `delay` invokes the producer exactly once across any N ≥ 1
forwarded operations: the first operation stores the produced value in
the cache slot, every operation (the first included) delegates to that
same cached object, and the final invocation count is one. -/
theorem producer_invoked_exactly_once {E V R : Type} (p : Nat → Except E V)
    (v0 : V) (h : p 0 = Except.ok v0) (op : V → R) (ops : List (V → R)) :
    runOps (newHandle p) (op :: ops) =
      (Except.ok (op v0) :: ops.map (fun o => Except.ok (o v0)),
       { func? := some p, value? := some v0, calls := 1 }) := by
  unfold runOps
  rw [wrapperStep_first p v0 h op,
      runOps_of_cached
        ({ func? := some p, value? := some v0, calls := 1 }) v0 rfl ops]

/-- Witness for C1 at a producer that would return a distinct value on
every hypothetical invocation (`n + 5` at call n), with two forwarded
operations: both delegate to the first call's value 5 and the
invocation count ends at one. -/
theorem producer_invoked_exactly_once_witness :
    runOps (E := Unit) (newHandle (fun n => Except.ok (n + 5)))
        ((fun v => v) :: [fun v => v + 1]) =
      ([Except.ok 5, Except.ok 6],
       { func? := some (fun n => Except.ok (n + 5)), value? := some 5,
         calls := 1 }) := by
  have h := producer_invoked_exactly_once (E := Unit)
    (fun n => Except.ok (n + 5)) 5 rfl (fun v => v) [fun v => v + 1]
  simpa using h

/-- Claim C2: for a pure producer, any forwarded operation on the handle
yields the same result as the operation applied to the produced value;
in particular `delay(lambda: 2) + 2` yields 4 via forwarded addition and
`2 + delay(lambda: 3)` yields 5 via the forwarded reflected operator. -/
theorem value_transparency {E V R : Type} (p : Nat → Except E V) (v : V)
    (h : p 0 = Except.ok v) (op : V → R) :
    (wrapperStep (newHandle p) op).1 = Except.ok (op v) ∧
    (wrapperStep (E := Unit) (newHandle (fun _ => Except.ok (2 : Int)))
        (fun x => x + 2)).1 = Except.ok 4 ∧
    (wrapperStep (E := Unit) (newHandle (fun _ => Except.ok (3 : Int)))
        (fun x => 2 + x)).1 = Except.ok 5 := by
  refine ⟨?_, by rfl, by rfl⟩
  rw [wrapperStep_first p v h op]

/-- Witness for C2 at the producer constantly returning 2 and the
identity operation. -/
theorem value_transparency_witness :
    (wrapperStep (E := Unit) (newHandle (fun _ => Except.ok (2 : Int)))
        (fun x => x)).1 = Except.ok 2 ∧
    (wrapperStep (E := Unit) (newHandle (fun _ => Except.ok (2 : Int)))
        (fun x => x + 2)).1 = Except.ok 4 ∧
    (wrapperStep (E := Unit) (newHandle (fun _ => Except.ok (3 : Int)))
        (fun x => 2 + x)).1 = Except.ok 5 :=
  value_transparency (E := Unit) (fun _ => Except.ok (2 : Int)) 2 rfl
    (fun x => x)

/-- Model of obtaining an iterator from a sequence-like handle.  The
generated proxy type has bases `(object,)` and no `__iter__` entry of
its own, so the host's fallback sequence-iteration protocol applies:
the iterator merely pairs the handle with index 0, performing no
operation on the handle itself. -/
def iterHandle {E : Type} (s : HandleState E (List Nat)) :
    HandleState E (List Nat) × Nat := (s, 0)

/-- Model of one `next` call on the sequence iterator: it performs the
forwarded `__getitem__` at the current index — the first operation that
actually reaches the handle — and advances the index. -/
def nextHandle {E : Type} (s : HandleState E (List Nat)) (i : Nat) :
    Except (PyErr E) (Option Nat) × (HandleState E (List Nat) × Nat) :=
  match wrapperStep s (fun v => v.get? i) with
  | (r, s') => (r, (s', i + 1))

/-- Claim C3: the producer is never invoked before the first forwarded
operation.  Handle construction only stores the producer (zero
invocations); in the embedding a handle is a pure value, so assignment
and argument passing cannot change it.  For a sequence-like handle,
iterator creation performs no operation on the handle, and the producer
fires exactly at the first `next` call, which forces the handle and
yields the first element 1 of the produced `[1, 2, 3]`. -/
theorem producer_not_invoked_before_first_op {E V : Type}
    (p : Nat → Except E V) (q : Nat → Except Unit (List Nat))
    (h : q 0 = Except.ok [1, 2, 3]) :
    newHandle p = { func? := some p, value? := none, calls := 0 } ∧
    iterHandle (newHandle q) = (newHandle q, 0) ∧
    (newHandle q).calls = 0 ∧
    nextHandle (newHandle q) 0 =
      (Except.ok (some 1),
       ({ func? := some q, value? := some [1, 2, 3], calls := 1 }, 1)) := by
  refine ⟨rfl, rfl, rfl, ?_⟩
  unfold nextHandle
  rw [wrapperStep_first q [1, 2, 3] h (fun v => v.get? 0)]
  rfl

/-- Witness for C3 at the producer constantly returning `[1, 2, 3]`. -/
theorem producer_not_invoked_before_first_op_witness :
    newHandle (E := Unit) (fun _ => Except.ok (0 : Nat)) =
      { func? := some (fun _ => Except.ok 0), value? := none, calls := 0 } ∧
    iterHandle (E := Unit) (newHandle (fun _ => Except.ok [1, 2, 3])) =
      (newHandle (fun _ => Except.ok [1, 2, 3]), 0) ∧
    (newHandle (E := Unit) (V := List Nat)
      (fun _ => Except.ok [1, 2, 3])).calls = 0 ∧
    nextHandle (E := Unit) (newHandle (fun _ => Except.ok [1, 2, 3])) 0 =
      (Except.ok (some 1),
       ({ func? := some (fun _ => Except.ok [1, 2, 3]),
          value? := some [1, 2, 3], calls := 1 }, 1)) :=
  producer_not_invoked_before_first_op (E := Unit)
    (fun _ => Except.ok (0 : Nat)) (fun _ => Except.ok [1, 2, 3]) rfl

/-- Claim C4: if the producer fails during forced evaluation, the error
propagates unchanged to the caller of the triggering operation, no
value is cached (the handle stays unforced), and a subsequent
independent operation on the same handle invokes the producer again. -/
theorem producer_error_not_cached {E V R : Type} (p : Nat → Except E V)
    (e : E) (he : p 0 = Except.error e) (op : V → R) :
    (wrapperStep (newHandle p) op).1 = Except.error (PyErr.producerError e) ∧
    (wrapperStep (newHandle p) op).2 =
      { func? := some p, value? := none, calls := 1 } ∧
    (∀ (v1 : V) (op2 : V → R), p 1 = Except.ok v1 →
      wrapperStep (wrapperStep (newHandle p) op).2 op2 =
        (Except.ok (op2 v1),
         { func? := some p, value? := some v1, calls := 2 })) := by
  have h1 : wrapperStep (newHandle p) op =
      (Except.error (PyErr.producerError e),
       { func? := some p, value? := none, calls := 1 }) := by
    unfold wrapperStep force newHandle
    simp [he]
  refine ⟨by rw [h1], by rw [h1], ?_⟩
  intro v1 op2 h2
  rw [h1]
  unfold wrapperStep force
  simp [h2]

/-- Witness for C4 at a producer failing on its first invocation and
succeeding with 7 on its second. -/
theorem producer_error_not_cached_witness :
    (wrapperStep
        (newHandle (fun n => if n = 0 then Except.error () else Except.ok 7))
        (fun v : Nat => v)).1 = Except.error (PyErr.producerError ()) ∧
    (wrapperStep
        (newHandle (fun n => if n = 0 then Except.error () else Except.ok 7))
        (fun v : Nat => v)).2 =
      { func? := some (fun n => if n = 0 then Except.error () else Except.ok 7),
        value? := none, calls := 1 } ∧
    (∀ (v1 : Nat) (op2 : Nat → Nat),
      (fun n => if n = 0 then Except.error () else Except.ok 7) 1 =
        Except.ok v1 →
      wrapperStep
          (wrapperStep
            (newHandle
              (fun n => if n = 0 then Except.error () else Except.ok 7))
            (fun v : Nat => v)).2 op2 =
        (Except.ok (op2 v1),
         { func? :=
             some (fun n => if n = 0 then Except.error () else Except.ok 7),
           value? := some v1, calls := 2 })) :=
  producer_error_not_cached
    (fun n => if n = 0 then Except.error () else Except.ok 7) () rfl
    (fun v : Nat => v)

/-- A concrete producer, constantly returning 5, used to exhibit the
retained `__func__` attribute after forcing. -/
def constFive : Nat → Except Unit Nat := fun _ => Except.ok 5

/-- Counterexample to C6 as stated: after the first successful forced
evaluation the handle still holds its producer in `__func__` — the
reference is never discarded, so the forced state does not hold only
the cached value. -/
theorem func_not_discarded_after_forcing :
    ((wrapperStep (newHandle constFive) (fun v => v)).2).func? =
      some constFive ∧
    ((wrapperStep (newHandle constFive) (fun v => v)).2).func? ≠ none :=
  ⟨rfl, fun h =>
    Option.noConfusion
      (h : (some constFive : Option (Nat → Except Unit Nat)) = none)⟩

/-- Claim C6 (amended): after the first successful forced evaluation the
handle retains its reference to the producer — `__func__` is never
deleted — but the producer can no longer be invoked through forwarded
operations on that handle: every later operation delegates to the
cached value and the invocation count stays at one. -/
theorem producer_retained_but_never_reinvoked {E V R : Type}
    (p : Nat → Except E V) (v0 : V) (h : p 0 = Except.ok v0)
    (op : V → R) (ops : List (V → R)) :
    ((wrapperStep (newHandle p) op).2).func? = some p ∧
    (runOps (wrapperStep (newHandle p) op).2 ops).2 =
      { func? := some p, value? := some v0, calls := 1 } := by
  rw [wrapperStep_first p v0 h op]
  exact ⟨rfl, by
    rw [runOps_of_cached
      ({ func? := some p, value? := some v0, calls := 1 }) v0 rfl ops]⟩

/-- Witness for the amended C6 at the producer constantly returning 9. -/
theorem producer_retained_but_never_reinvoked_witness :
    ((wrapperStep (E := Unit) (newHandle (fun _ => Except.ok (9 : Nat)))
        (fun v => v)).2).func? = some (fun _ => Except.ok 9) ∧
    (runOps (wrapperStep (E := Unit)
        (newHandle (fun _ => Except.ok (9 : Nat))) (fun v => v)).2
        [fun v => v + 1]).2 =
      { func? := some (fun _ => Except.ok 9), value? := some 9,
        calls := 1 } :=
  producer_retained_but_never_reinvoked (E := Unit)
    (fun _ => Except.ok (9 : Nat)) 9 rfl (fun v => v) [fun v => v + 1]

/-- Static data of a host type as the reflection facilities expose it to
`delay`: its qualified name, the names listed by `dir(typ)`, and the
subset of those names bound to routines (`inspect.isroutine`). -/
structure PyType where
  qualname : String
  dirNames : List String
  routineNames : List String
deriving DecidableEq

/-- Model of the builtin root type `object`, the single base of every
generated proxy type (src/delay.py line 53). -/
def pyObject : PyType :=
  { qualname := "object"
  , dirNames := ["__class__", "__delattr__", "__dir__", "__doc__", "__eq__",
      "__format__", "__ge__", "__getattribute__", "__gt__", "__hash__",
      "__init__", "__init_subclass__", "__le__", "__lt__", "__ne__",
      "__new__", "__reduce__", "__reduce_ex__", "__repr__", "__setattr__",
      "__sizeof__", "__str__", "__subclasshook__"]
  , routineNames := ["__delattr__", "__dir__", "__eq__", "__format__",
      "__ge__", "__getattribute__", "__gt__", "__hash__", "__init__",
      "__init_subclass__", "__le__", "__lt__", "__ne__", "__new__",
      "__reduce__", "__reduce_ex__", "__repr__", "__setattr__",
      "__sizeof__", "__str__", "__subclasshook__"] }

/-- The two kinds of entries the synthesis loop puts into `methdict`:
the handle's own `__new__` (which stores the producer), and the
deferred-forcing `wrapper` produced by `make_wrapper`. -/
inductive Meth where
  | newMeth : Meth
  | wrapperMeth : Meth
deriving DecidableEq

/-- Assignment into a string-keyed dictionary: overwrite the binding if
the key is present, append it otherwise (Python `d[k] = v`). -/
def dictInsert : List (String × Meth) → String → Meth → List (String × Meth)
  | [], k, v => [(k, v)]
  | (k', v') :: d, k, v =>
    if k' = k then (k, v) :: d else (k', v') :: dictInsert d k v

/-- The forwarding condition of the synthesis loop (src/delay.py lines
34-35): the name is neither `__new__` nor `__init__` and is bound to a
routine on the target type. -/
def isForwarded (typ : PyType) (n : String) : Bool :=
  (n != "__new__") && (n != "__init__") && typ.routineNames.contains n

/-- The `methdict` built for a target type (src/delay.py lines 22-49):
start from the custom `__new__`, then walk `dir(typ)` installing a
deferred-forcing wrapper for every routine name other than `__new__`
and `__init__`. -/
def methdictFor (typ : PyType) : List (String × Meth) :=
  typ.dirNames.foldl
    (fun d n => if isForwarded typ n then dictInsert d n Meth.wrapperMeth else d)
    [("__new__", Meth.newMeth)]

/-- The proxy type synthesized for a target type (src/delay.py lines
51-53): named after the target's qualified name, with `(object,)` as
its bases and the methdict above as its namespace. -/
structure DelayedType where
  name : String
  bases : List PyType
  methdict : List (String × Meth)
deriving DecidableEq

/-- Model of `type(typ)(name, (object,), methdict)` together with the
name computation on line 51. -/
def makeDelayedType (typ : PyType) : DelayedType :=
  { name := "Delayed(" ++ typ.qualname ++ ")"
  , bases := [pyObject]
  , methdict := methdictFor typ }

/-- The process-wide `_delayedtypes` registry, mapping target types to
their generated proxy types. -/
abbrev Registry := List (PyType × DelayedType)

/-- Registry lookup (`typ in _delayedtypes` / `_delayedtypes[typ]`). -/
def regLookup : Registry → PyType → Option DelayedType
  | [], _ => none
  | (t, dt) :: r, t' => if t = t' then some dt else regLookup r t'

/-- The error `delay` raises at creation time: the TypeError on
src/delay.py line 14, signalling that the producer has no return
annotation and no explicit type was supplied. -/
inductive DelayError where
  | missingReturnType : DelayError
deriving DecidableEq

/-- Resolution of the target type (src/delay.py lines 10-14): an
explicit second argument wins; otherwise the producer's own return
annotation is consulted; with neither, the call fails. -/
def resolveTyp (funcAnn : Option PyType) (typArg : Option PyType) :
    Except DelayError PyType :=
  match typArg with
  | some t => Except.ok t
  | none =>
    match funcAnn with
    | some t => Except.ok t
    | none => Except.error DelayError.missingReturnType

/-- The type-level behavior of one `delay` call (src/delay.py lines
9-54): resolve the target type, synthesize and register its proxy type
if absent, and return the proxy type used to build the handle (the
handle itself is `newHandle` at the value level).  The updated registry
is returned alongside. -/
def delayTyped (funcAnn typArg : Option PyType) (reg : Registry) :
    Except DelayError DelayedType × Registry :=
  match resolveTyp funcAnn typArg with
  | Except.error e => (Except.error e, reg)
  | Except.ok typ =>
    match regLookup reg typ with
    | some dt => (Except.ok dt, reg)
    | none => (Except.ok (makeDelayedType typ), (typ, makeDelayedType typ) :: reg)

/-- Instance test of a handle against a host type: the generated proxy
type's method-resolution order is itself followed by its bases, and
every object is an instance of the root type `object`. -/
def handleIsInstanceOf (dt : DelayedType) (t : PyType) : Bool :=
  (t == pyObject) || dt.bases.contains t

/-- A concrete target type used by witnesses: one ordinary method, one
arithmetic operator, construction and re-initialization entries, and a
non-routine data attribute. -/
def sampleType : PyType :=
  { qualname := "C"
  , dirNames := ["__add__", "__doc__", "__init__", "__new__", "frob"]
  , routineNames := ["__add__", "__init__", "__new__", "frob"] }

/-- Lookup in a string-keyed dictionary (Python `d[k]`, as an Option). -/
def dictLookup : List (String × Meth) → String → Option Meth
  | [], _ => none
  | (k', v') :: d, k => if k' = k then some v' else dictLookup d k

/-- Dictionary assignment binds the assigned key. -/
theorem dictLookup_dictInsert_self (d : List (String × Meth)) (k : String)
    (v : Meth) : dictLookup (dictInsert d k v) k = some v := by
  induction d with
  | nil => simp [dictInsert, dictLookup]
  | cons kv d ih =>
      obtain ⟨k', v'⟩ := kv
      by_cases h : k' = k
      · subst h
        simp [dictInsert, dictLookup]
      · simp [dictInsert, dictLookup, h, ih]

/-- Dictionary assignment leaves other keys' bindings unchanged. -/
theorem dictLookup_dictInsert_ne (d : List (String × Meth)) (k k' : String)
    (v : Meth) (h : k' ≠ k) :
    dictLookup (dictInsert d k v) k' = dictLookup d k' := by
  induction d with
  | nil => simp [dictInsert, dictLookup, Ne.symm h]
  | cons kv d ih =>
      obtain ⟨k₀, v₀⟩ := kv
      by_cases h0 : k₀ = k
      · subst h0
        simp [dictInsert, dictLookup, Ne.symm h]
      · simp [dictInsert, dictLookup, h0, ih]

/-- Characterization of the synthesis loop: a name looks up to a
wrapper after the walk over a name list exactly when it satisfies the
forwarding condition and occurs in the list; all other lookups fall
through to the initial dictionary. -/
theorem dictLookup_methdict_foldl (typ : PyType) (l : List String)
    (d : List (String × Meth)) (n : String) :
    dictLookup
      (l.foldl
        (fun d m =>
          if isForwarded typ m then dictInsert d m Meth.wrapperMeth else d)
        d) n =
      if isForwarded typ n = true ∧ n ∈ l then some Meth.wrapperMeth
      else dictLookup d n := by
  induction l generalizing d with
  | nil => simp
  | cons a l ih =>
      simp only [List.foldl_cons]
      rw [ih]
      by_cases hmem : isForwarded typ n = true ∧ n ∈ l
      · simp [hmem, hmem.1, hmem.2, List.mem_cons]
      · by_cases han : a = n
        · subst han
          by_cases hf : isForwarded typ a = true
          · simp [hmem, hf, dictLookup_dictInsert_self]
          · simp [hmem, hf]
        · have hnot : ¬(isForwarded typ n = true ∧ (n = a ∨ n ∈ l)) := by
            intro hc
            rcases hc with ⟨hc1, hc2 | hc3⟩
            · exact han hc2.symm
            · exact hmem ⟨hc1, hc3⟩
          by_cases hf : isForwarded typ a = true
          · simp [hmem, hnot, hf,
              dictLookup_dictInsert_ne d a n Meth.wrapperMeth (Ne.symm han)]
          · simp [hmem, hnot, hf]

/-- Full characterization of the synthesized methdict: forwarded names
map to the wrapper, `__new__` maps to the handle constructor, and
nothing else is bound. -/
theorem dictLookup_methdictFor (typ : PyType) (n : String) :
    dictLookup (methdictFor typ) n =
      if isForwarded typ n = true ∧ n ∈ typ.dirNames then
        some Meth.wrapperMeth
      else if n = "__new__" then some Meth.newMeth else none := by
  unfold methdictFor
  rw [dictLookup_methdict_foldl]
  by_cases h : n = "__new__"
  · subst h
    simp [dictLookup, isForwarded]
  · have h' : ¬"__new__" = n := fun hh => h hh.symm
    simp [dictLookup, h, h']

/-- Claim C5: calling `delay` on a producer with no declared return type
and no explicit type argument fails at creation time with the
missing-annotation TypeError, returning no proxy type and leaving the
registry unchanged; with a declared return type, or with an explicit
type argument (whatever the declaration says), the call does not raise
this error. -/
theorem missing_return_type_fails_at_creation (reg : Registry) :
    delayTyped none none reg =
      (Except.error DelayError.missingReturnType, reg) ∧
    (∀ t : PyType, ∃ dt, (delayTyped (some t) none reg).1 = Except.ok dt) ∧
    (∀ (t : PyType) (ann : Option PyType),
      ∃ dt, (delayTyped ann (some t) reg).1 = Except.ok dt) := by
  refine ⟨rfl, ?_, ?_⟩
  · intro t
    unfold delayTyped resolveTyp
    cases h : regLookup reg t <;> simp [h]
  · intro t ann
    unfold delayTyped resolveTyp
    cases h : regLookup reg t <;> simp [h]

/-- The forwarding condition, spelled out propositionally. -/
theorem isForwarded_iff (typ : PyType) (n : String) :
    isForwarded typ n = true ↔
      (n ∈ typ.routineNames ∧ n ≠ "__new__" ∧ n ≠ "__init__") := by
  simp only [isForwarded, Bool.and_eq_true, bne_iff_ne, List.contains,
    List.elem_iff]
  tauto

/-- Claim C7: the synthesized proxy type forwards exactly the
introspectable routines of the target type other than `__new__` and
`__init__`, all uniformly through the deferred-forcing wrapper;
`__new__` is bound to the handle's own constructor and `__init__` is
never forwarded. -/
theorem forwards_all_routines_except_new_init (typ : PyType) (n : String) :
    (dictLookup (makeDelayedType typ).methdict n = some Meth.wrapperMeth ↔
      (n ∈ typ.dirNames ∧ n ∈ typ.routineNames ∧
        n ≠ "__new__" ∧ n ≠ "__init__")) ∧
    dictLookup (makeDelayedType typ).methdict "__new__" =
      some Meth.newMeth ∧
    dictLookup (makeDelayedType typ).methdict "__init__" ≠
      some Meth.wrapperMeth := by
  refine ⟨?_, ?_, ?_⟩
  · show dictLookup (methdictFor typ) n = some Meth.wrapperMeth ↔ _
    rw [dictLookup_methdictFor]
    by_cases hc : isForwarded typ n = true ∧ n ∈ typ.dirNames
    · rw [if_pos hc]
      have h1 := (isForwarded_iff typ n).mp hc.1
      constructor
      · intro _
        exact ⟨hc.2, h1.1, h1.2.1, h1.2.2⟩
      · intro _
        rfl
    · rw [if_neg hc]
      constructor
      · intro hcontra
        by_cases hn : n = "__new__" <;> simp [hn] at hcontra
      · intro hmem
        exact absurd ⟨(isForwarded_iff typ n).mpr
          ⟨hmem.2.1, hmem.2.2.1, hmem.2.2.2⟩, hmem.1⟩ hc
  · show dictLookup (methdictFor typ) "__new__" = some Meth.newMeth
    rw [dictLookup_methdictFor]
    simp [isForwarded]
  · show dictLookup (methdictFor typ) "__init__" ≠ some Meth.wrapperMeth
    rw [dictLookup_methdictFor]
    simp [isForwarded]

/-- Claim C8: the registry maps each distinct target type to one
generated proxy type: a first `delay` call for a type synthesizes and
registers `makeDelayedType`, a call for an already-registered type
returns the stored proxy type with the registry untouched (no new
synthesis), and no registry entry is ever removed or changed by any
`delay` call. -/
theorem registry_one_type_per_target (reg : Registry) (typ : PyType)
    (ann typArg : Option PyType) :
    (regLookup reg typ = none →
      delayTyped ann (some typ) reg =
        (Except.ok (makeDelayedType typ),
         (typ, makeDelayedType typ) :: reg)) ∧
    (∀ dt, regLookup reg typ = some dt →
      delayTyped ann (some typ) reg = (Except.ok dt, reg)) ∧
    (∀ (t : PyType) (dt : DelayedType), regLookup reg t = some dt →
      regLookup (delayTyped ann typArg reg).2 t = some dt) := by
  refine ⟨?_, ?_, ?_⟩
  · intro h
    unfold delayTyped resolveTyp
    simp [h]
  · intro dt h
    unfold delayTyped resolveTyp
    simp [h]
  · intro t dt h
    unfold delayTyped
    cases hr : resolveTyp ann typArg with
    | error e => exact h
    | ok typ' =>
        simp only [hr]
        cases hl : regLookup reg typ' with
        | some dt' => simp only [hl]; exact h
        | none =>
            simp only [hl]
            show regLookup ((typ', makeDelayedType typ') :: reg) t = some dt
            unfold regLookup
            by_cases he : typ' = t
            · subst he
              rw [h] at hl
              exact Option.noConfusion hl
            · simp [he, h]

/-- Witness for C8 at the empty registry and the sample type: the first
call registers the synthesized type, the second call reuses it without
touching the registry, and the entry survives a later call. -/
theorem registry_one_type_per_target_witness :
    delayTyped none (some sampleType) [] =
      (Except.ok (makeDelayedType sampleType),
       [(sampleType, makeDelayedType sampleType)]) ∧
    delayTyped none (some sampleType)
        [(sampleType, makeDelayedType sampleType)] =
      (Except.ok (makeDelayedType sampleType),
       [(sampleType, makeDelayedType sampleType)]) ∧
    regLookup
        (delayTyped none (some pyObject)
          [(sampleType, makeDelayedType sampleType)]).2 sampleType =
      some (makeDelayedType sampleType) :=
  ⟨(registry_one_type_per_target [] sampleType none (some sampleType)).1 rfl,
   (registry_one_type_per_target [(sampleType, makeDelayedType sampleType)]
      sampleType none (some sampleType)).2.1 (makeDelayedType sampleType)
      (by decide),
   (registry_one_type_per_target [(sampleType, makeDelayedType sampleType)]
      pyObject none (some pyObject)).2.2 sampleType
      (makeDelayedType sampleType) (by decide)⟩

/-- Claim C9: a `delay` call with an explicit type argument succeeds
whatever the producer's own declared return type is (present, absent or
different), and is indistinguishable from inferred-type creation for
that same type: the very same proxy type is returned and the very same
registry results, so forwarding, memoization and registry entry all
coincide (the handle itself is `newHandle` of the producer in either
case). -/
theorem explicit_type_matches_inferred (ann : Option PyType)
    (typ : PyType) (reg : Registry) :
    delayTyped ann (some typ) reg = delayTyped (some typ) none reg ∧
    (∃ dt, (delayTyped ann (some typ) reg).1 = Except.ok dt) := by
  constructor
  · rfl
  · unfold delayTyped resolveTyp
    cases h : regLookup reg typ <;> simp [h]

/-- Counterexample to C10 as stated: when the target type is the root
type `object` itself, the handle IS an instance of the target type —
the generated proxy type's single base is `object`, so the instance
check against the target succeeds. -/
theorem handle_is_instance_of_target_object :
    handleIsInstanceOf (makeDelayedType pyObject) pyObject = true := by
  simp [handleIsInstanceOf]

/-- Claim C10 (amended): the generated proxy type is created with bases
`(object,)`, not the target type; hence for every target type other
than `object` itself the handle is not an instance of the target type,
and instance checks distinguish the handle from a genuine target value
even though its operations are forwarded.  (For the degenerate target
`object` the handle, like every object, is an instance of it.) -/
theorem handle_not_instance_of_target (t : PyType) (h : t ≠ pyObject) :
    (makeDelayedType t).bases = [pyObject] ∧
    handleIsInstanceOf (makeDelayedType t) t = false := by
  refine ⟨rfl, ?_⟩
  have hb : (t == pyObject) = false := beq_eq_false_iff_ne.mpr h
  simp [handleIsInstanceOf, makeDelayedType, List.contains, List.elem, hb]

/-- Witness for the amended C10 at the sample type. -/
theorem handle_not_instance_of_target_witness :
    (makeDelayedType sampleType).bases = [pyObject] ∧
    handleIsInstanceOf (makeDelayedType sampleType) sampleType = false :=
  handle_not_instance_of_target sampleType (by decide)

end Delay
